import Mathlib

/-!
Verification of the blob-storage wrapper (`src/blob_storage.py`).

The repository is a thin client over a cloud object store.  We embed it
shallowly: the remote store is an association list keyed by the fully
qualified blob address (connection string, container name, blob path);
the local filesystem is an association list from paths to entries (file
or directory); each Python method becomes a Lean function threading the
explicit system state (handler, remote store, local filesystem).
Errors raised by the Python code become `Except` values tagged with the
exception class the source raises.

The Azure SDK and the local filesystem are external collaborators, not
code of this repository; their behaviour is modelled from the spec's
description of the backing-store and filesystem capabilities (spec.md
section 6) and the operations' documented semantics.
-/

/-- The error kinds the wrapper can surface.  Each constructor mirrors a
concrete exception class of the Python code or of its collaborators:
`resourceExists` is `azure.core.exceptions.ResourceExistsError`,
`resourceNotFound` is the backing store's not-found error,
`valueError` is Python's `ValueError`, and `osError` covers local
filesystem failures (`IsADirectoryError`, `FileNotFoundError`). -/
inductive BlobError where
  | resourceExists (msg : String)
  | resourceNotFound (msg : String)
  | valueError (msg : String)
  | osError (msg : String)
deriving DecidableEq

/-- `ClientParamsInput` from the source: a frozen (immutable, value
equality) dataclass holding the connection string and container name. -/
structure ClientParamsInput where
  conn_str : String
  container_name : String
deriving DecidableEq

/-- The handler class.  Its only attribute is `client_params`, set once
by `__init__`. -/
structure BlobStorageHandler where
  client_params : ClientParamsInput
deriving DecidableEq

/-- `BlobStorageHandler.__init__(container_name, conn_str)`: stores the
two strings in a fresh `ClientParamsInput`. -/
def BlobStorageHandler.init (container_name conn_str : String) : BlobStorageHandler :=
  ⟨{ conn_str := conn_str, container_name := container_name }⟩

/-- SDK service handle: determined by the connection string. -/
structure BlobServiceClient where
  conn_str : String
deriving DecidableEq

/-- SDK container handle: service handle plus container name. -/
structure ContainerClient where
  conn_str : String
  container_name : String
deriving DecidableEq

/-- SDK blob handle: container handle plus blob path. -/
structure BlobClient where
  conn_str : String
  container_name : String
  blob_path : String
deriving DecidableEq

/-- Modelled from the spec: `serviceHandle(connectionDescriptor)` — the
SDK derives a service handle from the opaque connection string. -/
def BlobServiceClient.from_connection_string (conn_str : String) : BlobServiceClient :=
  ⟨conn_str⟩

/-- Modelled from the spec: `containerHandle(serviceHandle, containerName)`. -/
def BlobServiceClient.get_container_client (c : BlobServiceClient)
    (container_name : String) : ContainerClient :=
  ⟨c.conn_str, container_name⟩

/-- Modelled from the spec: `blobHandle(containerHandle, path)`. -/
def ContainerClient.get_blob_client (c : ContainerClient) (file_path : String) : BlobClient :=
  ⟨c.conn_str, c.container_name, file_path⟩

/-- A fully qualified blob address: connection string, container name,
blob path. -/
abbrev BlobAddr := String × String × String

/-- The address a blob handle refers to. -/
def BlobClient.addr (c : BlobClient) : BlobAddr :=
  (c.conn_str, c.container_name, c.blob_path)

/-- A stored object: its content together with its snapshots. -/
structure BlobRecord where
  data : String
  snapshots : List String
deriving DecidableEq

/-- The remote object store, as an association list from addresses to
records. -/
abbrev Store := List (BlobAddr × BlobRecord)

/-- Look up the record stored at an address. -/
def Store.lookupAddr : Store → BlobAddr → Option BlobRecord
  | [], _ => none
  | (k, r) :: rest, a => if k = a then some r else Store.lookupAddr rest a

/-- Write a record at an address, replacing any existing one. -/
def Store.setAddr : Store → BlobAddr → BlobRecord → Store
  | [], a, r => [(a, r)]
  | (k, v) :: rest, a, r =>
      if k = a then (a, r) :: rest else (k, v) :: Store.setAddr rest a r

/-- Remove the record at an address (a no-op when absent). -/
def Store.eraseAddr : Store → BlobAddr → Store
  | [], _ => []
  | (k, v) :: rest, a =>
      if k = a then Store.eraseAddr rest a else (k, v) :: Store.eraseAddr rest a

/-- Modelled from the spec: the backing store's `exists()` on a blob
handle — true iff an object is stored at the handle's address; never
raises for "not found". -/
def BlobClient.exists (c : BlobClient) (store : Store) : Bool :=
  (Store.lookupAddr store c.addr).isSome

/-- Modelled from the spec: `downloadAll() -> bytes` on a blob handle —
returns the stored content, failing with the store's not-found error
when the object is absent (`download_blob().readall()` in the source). -/
def BlobClient.download_blob_readall (c : BlobClient) (store : Store) :
    Except BlobError String :=
  match Store.lookupAddr store c.addr with
  | some r => .ok r.data
  | none => .error (.resourceNotFound "The specified blob does not exist.")

/-- Modelled from the spec: `uploadBlob(name, data, overwriteFlag)` on a
container handle — when the flag is false and an object exists at the
name it fails with a resource-exists error; otherwise it writes the
data (keeping any snapshots of a replaced object) and returns the blob
handle. -/
def ContainerClient.upload_blob (cc : ContainerClient) (store : Store)
    (name : String) (data : String) (overwrite : Bool) :
    (Except BlobError BlobClient) × Store :=
  let bc := cc.get_blob_client name
  match Store.lookupAddr store bc.addr with
  | some r =>
      if overwrite then
        (.ok bc, Store.setAddr store bc.addr ⟨data, r.snapshots⟩)
      else
        (.error (.resourceExists "The specified blob already exists."), store)
  | none => (.ok bc, Store.setAddr store bc.addr ⟨data, []⟩)

/-- Modelled from the spec: `deleteBlob(includeSnapshots: true)` on a
blob handle — removes the object together with its snapshots; the call
does not fail when the object is absent (spec.md section 8's post-check
semantics: the delete call does not fail). -/
def BlobClient.delete_blob_include_snapshots (c : BlobClient) (store : Store) : Store :=
  Store.eraseAddr store c.addr

/-- A local filesystem entry: a regular file with its content, or a
directory. -/
inductive LocalEntry where
  | file (content : String)
  | dir
deriving DecidableEq

/-- The local filesystem, as an association list from paths to entries. -/
abbrev LocalFS := List (String × LocalEntry)

/-- Look up the entry at a local path. -/
def LocalFS.lookup : LocalFS → String → Option LocalEntry
  | [], _ => none
  | (k, e) :: rest, p => if k = p then some e else LocalFS.lookup rest p

/-- Write an entry at a local path, replacing any existing one. -/
def LocalFS.set : LocalFS → String → LocalEntry → LocalFS
  | [], p, e => [(p, e)]
  | (k, v) :: rest, p, e =>
      if k = p then (p, e) :: rest else (k, v) :: LocalFS.set rest p e

/-- Modelled from the spec: the local filesystem's path-existence check
for regular files (`os.path.isfile` in the source) — true iff the path
holds a regular file. -/
def LocalFS.isfile (fs : LocalFS) (path : String) : Bool :=
  match fs.lookup path with
  | some (.file _) => true
  | _ => false

/-- Modelled from the spec: opening a local path for writing
(`open(path, "wb")` in the source) — fails when the path is a
directory; otherwise creates or truncates a regular file at the path. -/
def LocalFS.open_wb (fs : LocalFS) (path : String) : Except BlobError LocalFS :=
  match fs.lookup path with
  | some .dir => .error (.osError ("IsADirectoryError: `" ++ path ++ "` is a directory"))
  | _ => .ok (fs.set path (.file ""))

/-- Writing all bytes to a file opened for writing (`f.write(...)` in
the source). -/
def LocalFS.write_file (fs : LocalFS) (path : String) (data : String) : LocalFS :=
  fs.set path (.file data)

/-- Modelled from the spec: opening a local path for reading and
reading its whole content (`open(path, "rb")` in the source) — fails
when the path is absent or a directory. -/
def LocalFS.open_rb (fs : LocalFS) (path : String) : Except BlobError String :=
  match fs.lookup path with
  | some (.file c) => .ok c
  | some .dir => .error (.osError ("IsADirectoryError: `" ++ path ++ "` is a directory"))
  | none => .error (.osError ("FileNotFoundError: `" ++ path ++ "` does not exist"))

/-- The whole system state a method call can touch: the handler object
(`self`), the remote store, and the local filesystem. -/
structure SystemState where
  handler : BlobStorageHandler
  store : Store
  fs : LocalFS
deriving DecidableEq

/-- `create_client`: builds the service client from the stored
connection string. -/
def BlobStorageHandler.create_client (h : BlobStorageHandler) : BlobServiceClient :=
  BlobServiceClient.from_connection_string h.client_params.conn_str

/-- `get_container_client`: the container client for the stored
container name, derived from `create_client`. -/
def BlobStorageHandler.get_container_client (h : BlobStorageHandler) : ContainerClient :=
  h.create_client.get_container_client h.client_params.container_name

/-- `get_blob_client(file_path)`: the blob client for a path, derived
from `get_container_client`. -/
def BlobStorageHandler.get_blob_client (h : BlobStorageHandler)
    (file_path : String) : BlobClient :=
  h.get_container_client.get_blob_client file_path

/-- `blob_exists(file_path)`: asks the blob client whether the blob
exists.  The method mutates nothing, so the state is returned as is. -/
def SystemState.blob_exists (s : SystemState) (file_path : String) : Bool × SystemState :=
  ((s.handler.get_blob_client file_path).exists s.store, s)

/-- `read_obj(file_path)`: downloads and returns the blob's whole
content via `download_blob().readall()`; no local existence pre-check. -/
def SystemState.read_obj (s : SystemState) (file_path : String) :
    (Except BlobError String) × SystemState :=
  ((s.handler.get_blob_client file_path).download_blob_readall s.store, s)

/-- `download_file(from_file_path, to_file_path)`: raises
`ResourceExistsError` when the remote blob does not exist (with a
message naming `to_file_path`), raises `ValueError` when a regular file
already exists at `to_file_path`, otherwise opens `to_file_path` for
writing, writes the downloaded content, and returns `True`. -/
def SystemState.download_file (s : SystemState)
    (from_file_path to_file_path : String) : (Except BlobError Bool) × SystemState :=
  if (s.blob_exists from_file_path).1 = false then
    (.error (.resourceExists
      ("The specified blob `" ++ to_file_path ++ "` does not exists.")), s)
  else if LocalFS.isfile s.fs to_file_path then
    (.error (.valueError
      ("The specified file `" ++ to_file_path ++ "` already exists.")), s)
  else
    match LocalFS.open_wb s.fs to_file_path with
    | .error e => (.error e, s)
    | .ok fs1 =>
        match (s.handler.get_blob_client from_file_path).download_blob_readall s.store with
        | .error e => (.error e, ⟨s.handler, s.store, fs1⟩)
        | .ok data =>
            (.ok true, ⟨s.handler, s.store, LocalFS.write_file fs1 to_file_path data⟩)

/-- `save_obj(file_obj, file_path, overwrite)`: when `overwrite` is
false and the blob exists, raises `ResourceExistsError`; otherwise
uploads via the container client with an unconditional `overwrite=True`
flag and returns the blob client. -/
def SystemState.save_obj (s : SystemState) (file_obj : String)
    (file_path : String) (overwrite : Bool) :
    (Except BlobError BlobClient) × SystemState :=
  if !overwrite && (s.blob_exists file_path).1 then
    (.error (.resourceExists
      ("The specified blob `" ++ file_path ++ "` already exists")), s)
  else
    let r := s.handler.get_container_client.upload_blob s.store file_path file_obj true
    (r.1, ⟨s.handler, r.2, s.fs⟩)

/-- `upload_file(from_file_path, to_file_path, overwrite)`: opens the
local file for reading and delegates to `save_obj` on its content. -/
def SystemState.upload_file (s : SystemState)
    (from_file_path to_file_path : String) (overwrite : Bool) :
    (Except BlobError BlobClient) × SystemState :=
  match LocalFS.open_rb s.fs from_file_path with
  | .error e => (.error e, s)
  | .ok file_obj => s.save_obj file_obj to_file_path overwrite

/-- `delete_obj(file_path)`: deletes the blob (snapshots included),
then returns `False` when `blob_exists` still holds, `True` otherwise. -/
def SystemState.delete_obj (s : SystemState) (file_path : String) : Bool × SystemState :=
  let store1 := (s.handler.get_blob_client file_path).delete_blob_include_snapshots s.store
  let s1 : SystemState := ⟨s.handler, store1, s.fs⟩
  if (s1.blob_exists file_path).1 then (false, s1) else (true, s1)

/-! ### Helper lemmas about the store and the modelled collaborators -/

theorem Store.lookupAddr_setAddr_self (st : Store) (a : BlobAddr) (r : BlobRecord) :
    Store.lookupAddr (Store.setAddr st a r) a = some r := by
  induction st with
  | nil => simp [Store.setAddr, Store.lookupAddr]
  | cons kv rest ih =>
      obtain ⟨k, v⟩ := kv
      by_cases hk : k = a
      · simp [Store.setAddr, Store.lookupAddr, hk]
      · simp [Store.setAddr, Store.lookupAddr, hk, ih]

theorem Store.lookupAddr_eraseAddr_self (st : Store) (a : BlobAddr) :
    Store.lookupAddr (Store.eraseAddr st a) a = none := by
  induction st with
  | nil => simp [Store.eraseAddr, Store.lookupAddr]
  | cons kv rest ih =>
      obtain ⟨k, v⟩ := kv
      by_cases hk : k = a
      · simp [Store.eraseAddr, hk, ih]
      · simp [Store.eraseAddr, Store.lookupAddr, hk, ih]

theorem Store.eraseAddr_of_lookupAddr_none (st : Store) (a : BlobAddr)
    (h : Store.lookupAddr st a = none) : Store.eraseAddr st a = st := by
  induction st with
  | nil => simp [Store.eraseAddr]
  | cons kv rest ih =>
      obtain ⟨k, v⟩ := kv
      by_cases hk : k = a
      · simp [Store.lookupAddr, hk] at h
      · simp [Store.lookupAddr, hk] at h
        simp [Store.eraseAddr, hk, ih h]

theorem ContainerClient.upload_blob_true_fst (cc : ContainerClient) (st : Store)
    (n d : String) : (cc.upload_blob st n d true).1 = .ok (cc.get_blob_client n) := by
  unfold ContainerClient.upload_blob
  cases h : Store.lookupAddr st (cc.get_blob_client n).addr <;> simp [h]

theorem ContainerClient.upload_blob_true_lookup (cc : ContainerClient) (st : Store)
    (n d : String) :
    (Store.lookupAddr (cc.upload_blob st n d true).2
        (cc.get_blob_client n).addr).map BlobRecord.data = some d := by
  unfold ContainerClient.upload_blob
  cases h : Store.lookupAddr st (cc.get_blob_client n).addr <;>
    simp [h, Store.lookupAddr_setAddr_self]

theorem read_obj_after_upload_true (h : BlobStorageHandler) (st : Store) (fs : LocalFS)
    (p d : String) :
    ((SystemState.mk h (h.get_container_client.upload_blob st p d true).2 fs).read_obj p).1
      = .ok d := by
  have hl := ContainerClient.upload_blob_true_lookup h.get_container_client st p d
  unfold SystemState.read_obj BlobClient.download_blob_readall
  cases hc : Store.lookupAddr (h.get_container_client.upload_blob st p d true).2
      (h.get_container_client.get_blob_client p).addr with
  | none =>
      rw [hc] at hl
      simp at hl
  | some r =>
      rw [hc] at hl
      simp at hl
      simp [BlobStorageHandler.get_blob_client, hc, hl]

theorem blob_exists_after_upload_true (h : BlobStorageHandler) (st : Store) (fs : LocalFS)
    (p d : String) :
    ((SystemState.mk h (h.get_container_client.upload_blob st p d true).2 fs).blob_exists p).1
      = true := by
  have hl := ContainerClient.upload_blob_true_lookup h.get_container_client st p d
  unfold SystemState.blob_exists BlobClient.exists
  cases hc : Store.lookupAddr (h.get_container_client.upload_blob st p d true).2
      (h.get_container_client.get_blob_client p).addr with
  | none =>
      rw [hc] at hl
      simp at hl
  | some r =>
      simp [BlobStorageHandler.get_blob_client, hc]

/-! ### Concrete sample states for witnesses and counterexamples -/

/-- A sample handler constructed as the source constructs it. -/
def handler0 : BlobStorageHandler := BlobStorageHandler.init "docs" "conn"

/-- A state with an empty remote store and empty local filesystem. -/
def state0 : SystemState := ⟨handler0, [], []⟩

/-- A state whose remote store holds `a.txt` with content `hello`. -/
def state1 : SystemState :=
  ⟨handler0, [(("conn", "docs", "a.txt"), ⟨"hello", []⟩)], []⟩

/-- A state with blob `r.txt` stored remotely and a regular file at the
local path `l.txt`. -/
def state2 : SystemState :=
  ⟨handler0, [(("conn", "docs", "r.txt"), ⟨"hello", []⟩)],
    [("l.txt", .file "old")]⟩

/-- A state with blob `r.txt` stored remotely and a directory at the
local path `l.txt`. -/
def state3 : SystemState :=
  ⟨handler0, [(("conn", "docs", "r.txt"), ⟨"hello", []⟩)], [("l.txt", .dir)]⟩

/-! ### The claims -/

/-- Claim C1: the claim says `download_file` fails with a
`RemoteNotFound`-kind error when the remote object does not exist.  The
code instead raises `ResourceExistsError` — an exists-themed kind — at
such an input: evaluating `download_file` on an empty remote store
yields `.error (.resourceExists ...)`, not a not-found kind. -/
theorem download_file_absent_remote_raises_exists_kind :
    (state0.download_file "a.txt" "b.txt").1
      = .error (.resourceExists "The specified blob `b.txt` does not exists.") := by
  rfl

/-- Claim C9: when the remote blob is absent, the error raised by
`download_file` carries a message naming the local destination path
`to_file_path` as the blob that "does not exists", not the missing
remote path. -/
theorem download_file_absent_message_names_local_path
    (s : SystemState) (from_file_path to_file_path : String)
    (h : (s.blob_exists from_file_path).1 = false) :
    (s.download_file from_file_path to_file_path).1
      = .error (.resourceExists
          ("The specified blob `" ++ to_file_path ++ "` does not exists.")) := by
  unfold SystemState.download_file
  simp [h]

/-- Witness for C9 at a concrete input: the remote path is
`remote.txt`, yet the message names `local.txt`. -/
theorem download_file_absent_message_names_local_path_witness :
    (state0.download_file "remote.txt" "local.txt").1
      = .error (.resourceExists "The specified blob `local.txt` does not exists.") :=
  download_file_absent_message_names_local_path state0 "remote.txt" "local.txt" rfl

/-- Claim C2: `save_obj` with `overwrite = false` fails with the
already-exists error and leaves the whole state unchanged when the blob
exists; in every other case it delegates to the storage layer's upload
with an unconditional `overwrite = true` flag and returns the blob
handle. -/
theorem save_obj_overwrite_guard (s : SystemState) (d p : String) (ow : Bool) :
    s.save_obj d p ow =
      if ow = false ∧ (s.blob_exists p).1 = true then
        (.error (.resourceExists ("The specified blob `" ++ p ++ "` already exists")), s)
      else
        (.ok (s.handler.get_blob_client p),
          ⟨s.handler, (s.handler.get_container_client.upload_blob s.store p d true).2, s.fs⟩) := by
  unfold SystemState.save_obj
  cases ow with
  | false =>
      cases hb : (s.blob_exists p).1 with
      | false =>
          simp [hb, ContainerClient.upload_blob_true_fst, BlobStorageHandler.get_blob_client]
      | true => simp [hb]
  | true =>
      simp [ContainerClient.upload_blob_true_fst, BlobStorageHandler.get_blob_client]

/-- Claim C6: `read_obj` is exactly the backing store's download-all
call (no local existence pre-check): it returns the full stored content
when the object exists and the propagated not-found error when it is
absent. -/
theorem read_obj_spec (s : SystemState) (p : String) :
    (s.read_obj p).1 = (s.handler.get_blob_client p).download_blob_readall s.store
    ∧ ((s.blob_exists p).1 = false →
        (s.read_obj p).1 = .error (.resourceNotFound "The specified blob does not exist."))
    ∧ (∀ r : BlobRecord,
        Store.lookupAddr s.store (s.handler.get_blob_client p).addr = some r →
        (s.read_obj p).1 = .ok r.data) := by
  refine ⟨rfl, ?_, ?_⟩
  · intro h
    unfold SystemState.blob_exists BlobClient.exists at h
    unfold SystemState.read_obj BlobClient.download_blob_readall
    cases hc : Store.lookupAddr s.store (s.handler.get_blob_client p).addr with
    | none => simp
    | some r => simp [hc] at h
  · intro r hr
    unfold SystemState.read_obj BlobClient.download_blob_readall
    simp [hr]

/-- Witness for C6 at concrete inputs: reading the stored blob returns
its content, and reading from an empty store fails with the not-found
error. -/
theorem read_obj_spec_witness :
    (state1.read_obj "a.txt").1 = .ok "hello"
    ∧ (state0.read_obj "a.txt").1
        = .error (.resourceNotFound "The specified blob does not exist.") :=
  ⟨(read_obj_spec state1 "a.txt").2.2 ⟨"hello", []⟩ rfl,
   (read_obj_spec state0 "a.txt").2.1 rfl⟩

/-- Claim C3: `delete_obj` returns true exactly when the object no
longer exists after the deletion; in particular, on an existing object
it returns true and a subsequent existence check is false, and the
whole record — snapshots included — is gone from the store. -/
theorem delete_obj_postcheck (s : SystemState) (p : String) :
    ((s.delete_obj p).1 = true ↔ (((s.delete_obj p).2).blob_exists p).1 = false)
    ∧ ((s.blob_exists p).1 = true →
        (s.delete_obj p).1 = true ∧ (((s.delete_obj p).2).blob_exists p).1 = false)
    ∧ Store.lookupAddr ((s.delete_obj p).2).store (s.handler.get_blob_client p).addr
        = none := by
  have hnone : Store.lookupAddr
      ((s.handler.get_blob_client p).delete_blob_include_snapshots s.store)
      (s.handler.get_blob_client p).addr = none := by
    unfold BlobClient.delete_blob_include_snapshots
    exact Store.lookupAddr_eraseAddr_self s.store (s.handler.get_blob_client p).addr
  unfold SystemState.delete_obj SystemState.blob_exists BlobClient.exists
  simp [hnone]

/-- Witness for C3 at a concrete input: `a.txt` exists in `state1`,
`delete_obj` returns true, and the blob no longer exists. -/
theorem delete_obj_postcheck_witness :
    (state1.delete_obj "a.txt").1 = true
    ∧ (((state1.delete_obj "a.txt").2).blob_exists "a.txt").1 = false :=
  (delete_obj_postcheck state1 "a.txt").2.1 rfl

/-- Claim C4: `delete_obj` on an absent object does not fail (the
modelled delete call is total), returns true, and the object is absent
afterwards; indeed the state is untouched. -/
theorem delete_obj_absent (s : SystemState) (p : String)
    (h : (s.blob_exists p).1 = false) :
    s.delete_obj p = (true, s)
    ∧ (((s.delete_obj p).2).blob_exists p).1 = false := by
  unfold SystemState.blob_exists BlobClient.exists at h
  have hlook : Store.lookupAddr s.store (s.handler.get_blob_client p).addr = none := by
    cases hc : Store.lookupAddr s.store (s.handler.get_blob_client p).addr with
    | none => rfl
    | some r => simp [hc] at h
  have herase : (s.handler.get_blob_client p).delete_blob_include_snapshots s.store
      = s.store := by
    unfold BlobClient.delete_blob_include_snapshots
    exact Store.eraseAddr_of_lookupAddr_none s.store _ hlook
  constructor
  · unfold SystemState.delete_obj
    simp [herase, SystemState.blob_exists, BlobClient.exists, hlook]
  · unfold SystemState.delete_obj
    simp [herase, SystemState.blob_exists, BlobClient.exists, hlook]

/-- Witness for C4 at a concrete input: deleting the absent `a.txt`
from the empty store succeeds, returns true and changes nothing. -/
theorem delete_obj_absent_witness :
    state0.delete_obj "a.txt" = (true, state0)
    ∧ (((state0.delete_obj "a.txt").2).blob_exists "a.txt").1 = false :=
  delete_obj_absent state0 "a.txt" rfl

/-- Claim C5: starting from a state where `p` is absent, the first
`save_obj` with `overwrite = false` succeeds; a second
`save_obj` with `overwrite = false` fails with the already-exists error
and leaves the state (hence the stored content) unchanged, so reading
still returns the first payload; a second `save_obj` with
`overwrite = true` succeeds and a subsequent `read_obj` returns the new
payload. -/
theorem save_then_save_then_read (s : SystemState) (p d d2 : String)
    (h : (s.blob_exists p).1 = false) :
    ((s.save_obj d p false).1 = .ok (s.handler.get_blob_client p))
    ∧ (((s.save_obj d p false).2).save_obj d2 p false
        = (.error (.resourceExists ("The specified blob `" ++ p ++ "` already exists")),
           (s.save_obj d p false).2))
    ∧ ((((s.save_obj d p false).2).read_obj p).1 = .ok d)
    ∧ ((((s.save_obj d p false).2).save_obj d2 p true).1
        = .ok (s.handler.get_blob_client p))
    ∧ (((((s.save_obj d p false).2).save_obj d2 p true).2).read_obj p).1 = .ok d2 := by
  have hs : s.save_obj d p false
      = (.ok (s.handler.get_blob_client p),
         ⟨s.handler, (s.handler.get_container_client.upload_blob s.store p d true).2, s.fs⟩) := by
    unfold SystemState.save_obj
    simp [h, ContainerClient.upload_blob_true_fst, BlobStorageHandler.get_blob_client]
  have hb1 := blob_exists_after_upload_true s.handler s.store s.fs p d
  refine ⟨by rw [hs], ?_, ?_, ?_, ?_⟩
  · rw [hs]
    unfold SystemState.save_obj
    simp [hb1]
  · rw [hs]
    exact read_obj_after_upload_true s.handler s.store s.fs p d
  · rw [hs]
    unfold SystemState.save_obj
    simp [ContainerClient.upload_blob_true_fst, BlobStorageHandler.get_blob_client]
  · rw [hs]
    unfold SystemState.save_obj
    simp [ContainerClient.upload_blob_true_fst]
    exact read_obj_after_upload_true s.handler _ s.fs p d2

/-- Witness for C5 at a concrete input, starting from the empty store. -/
theorem save_then_save_then_read_witness :
    ((state0.save_obj "hello" "a.txt" false).1
        = .ok (state0.handler.get_blob_client "a.txt"))
    ∧ (((state0.save_obj "hello" "a.txt" false).2).save_obj "world" "a.txt" false
        = (.error (.resourceExists
             ("The specified blob `" ++ "a.txt" ++ "` already exists")),
           (state0.save_obj "hello" "a.txt" false).2))
    ∧ ((((state0.save_obj "hello" "a.txt" false).2).read_obj "a.txt").1 = .ok "hello")
    ∧ ((((state0.save_obj "hello" "a.txt" false).2).save_obj "world" "a.txt" true).1
        = .ok (state0.handler.get_blob_client "a.txt"))
    ∧ (((((state0.save_obj "hello" "a.txt" false).2).save_obj "world" "a.txt" true).2).read_obj
          "a.txt").1 = .ok "world" :=
  save_then_save_then_read state0 "a.txt" "hello" "world" rfl

/-- Claim C7: on a readable local file, `upload_file` equals opening
the file and calling `save_obj` on its content with the same remote
path and flag — same result (handle or error) and same final state. -/
theorem upload_file_delegates_to_save_obj (s : SystemState)
    (from_file_path to_file_path : String) (overwrite : Bool) (c : String)
    (h : LocalFS.lookup s.fs from_file_path = some (.file c)) :
    s.upload_file from_file_path to_file_path overwrite
      = s.save_obj c to_file_path overwrite := by
  unfold SystemState.upload_file LocalFS.open_rb
  simp [h]

/-- Witness for C7 at a concrete input: uploading a local file holding
`payload` behaves as saving `payload` directly. -/
theorem upload_file_delegates_to_save_obj_witness :
    SystemState.upload_file ⟨handler0, [], [("f.txt", .file "payload")]⟩ "f.txt" "a.txt" false
      = SystemState.save_obj ⟨handler0, [], [("f.txt", .file "payload")]⟩ "payload" "a.txt" false :=
  upload_file_delegates_to_save_obj
    ⟨handler0, [], [("f.txt", .file "payload")]⟩ "f.txt" "a.txt" false "payload" rfl

/-! Handler-preservation helpers: no method body assigns to `self`, so
every call leaves the handler component of the state untouched. -/

theorem save_obj_handler_eq (s : SystemState) (d p : String) (ow : Bool) :
    ((s.save_obj d p ow).2).handler = s.handler := by
  unfold SystemState.save_obj
  split <;> rfl

theorem download_file_handler_eq (s : SystemState) (a b : String) :
    ((s.download_file a b).2).handler = s.handler := by
  unfold SystemState.download_file
  split
  · rfl
  · split
    · rfl
    · split
      · rfl
      · split <;> rfl

theorem upload_file_handler_eq (s : SystemState) (a b : String) (ow : Bool) :
    ((s.upload_file a b ow).2).handler = s.handler := by
  unfold SystemState.upload_file
  split
  · rfl
  · exact save_obj_handler_eq s _ b ow

theorem delete_obj_handler_eq (s : SystemState) (p : String) :
    ((s.delete_obj p).2).handler = s.handler := by
  unfold SystemState.delete_obj
  dsimp only
  split <;> rfl

/-- Claim C8: the configuration is an immutable value fixed at
construction — `__init__` stores exactly the given connection string
and container name; the handler holds no state besides `client_params`
(two handlers with equal configuration are equal); and every operation
returns the state with its handler, hence its configuration,
unchanged. -/
theorem config_immutable_across_calls :
    (∀ container_name conn_str : String,
        (BlobStorageHandler.init container_name conn_str).client_params
          = ⟨conn_str, container_name⟩)
    ∧ (∀ h h' : BlobStorageHandler, h.client_params = h'.client_params → h = h')
    ∧ (∀ (s : SystemState) (p : String), ((s.blob_exists p).2).handler = s.handler)
    ∧ (∀ (s : SystemState) (p : String), ((s.read_obj p).2).handler = s.handler)
    ∧ (∀ (s : SystemState) (a b : String),
        ((s.download_file a b).2).handler = s.handler)
    ∧ (∀ (s : SystemState) (a b : String) (ow : Bool),
        ((s.upload_file a b ow).2).handler = s.handler)
    ∧ (∀ (s : SystemState) (d p : String) (ow : Bool),
        ((s.save_obj d p ow).2).handler = s.handler)
    ∧ (∀ (s : SystemState) (p : String), ((s.delete_obj p).2).handler = s.handler) := by
  refine ⟨fun _ _ => rfl, ?_, fun _ _ => rfl, fun _ _ => rfl,
    download_file_handler_eq, upload_file_handler_eq, save_obj_handler_eq,
    delete_obj_handler_eq⟩
  intro h h' he
  cases h
  cases h'
  simpa using he

/-- Witness for C8 at concrete inputs: value identity of the
configuration, and an effectful call leaving the handler unchanged. -/
theorem config_immutable_across_calls_witness :
    (handler0 = BlobStorageHandler.mk ⟨"conn", "docs"⟩)
    ∧ ((state1.delete_obj "a.txt").2).handler = state1.handler :=
  ⟨config_immutable_across_calls.2.1 handler0 (BlobStorageHandler.mk ⟨"conn", "docs"⟩) rfl,
   config_immutable_across_calls.2.2.2.2.2.2.2 state1 "a.txt"⟩

/-- Claim C10: given that the remote blob exists, `download_file`
raises its local-destination `ValueError` exactly when the destination
path holds a regular file; when the destination is a directory the
guard does not fire and the attempted open for writing fails with the
filesystem's is-a-directory error instead. -/
theorem download_file_local_guard (s : SystemState) (a b : String)
    (h : (s.blob_exists a).1 = true) :
    (((s.download_file a b).1
        = .error (.valueError ("The specified file `" ++ b ++ "` already exists.")))
      ↔ LocalFS.isfile s.fs b = true)
    ∧ (LocalFS.lookup s.fs b = some .dir →
        (s.download_file a b).1
          = .error (.osError ("IsADirectoryError: `" ++ b ++ "` is a directory"))) := by
  have hread : ∀ r : BlobRecord,
      Store.lookupAddr s.store (s.handler.get_blob_client a).addr = some r →
      (s.handler.get_blob_client a).download_blob_readall s.store = .ok r.data := by
    intro r hr
    unfold BlobClient.download_blob_readall
    simp [hr]
  have hsome : (Store.lookupAddr s.store (s.handler.get_blob_client a).addr).isSome := by
    unfold SystemState.blob_exists BlobClient.exists at h
    exact h
  constructor
  · by_cases hf : LocalFS.isfile s.fs b
    · simp [SystemState.download_file, h, hf]
    · simp only [Bool.not_eq_true] at hf
      simp only [hf, Bool.false_eq_true, iff_false]
      cases hw : LocalFS.open_wb s.fs b with
      | error e =>
          have he : ∃ msg, e = .osError msg := by
            unfold LocalFS.open_wb at hw
            cases hl : LocalFS.lookup s.fs b with
            | none =>
                rw [hl] at hw
                simp at hw
            | some ent =>
                cases ent with
                | file c =>
                    rw [hl] at hw
                    simp at hw
                | dir =>
                    rw [hl] at hw
                    simp at hw
                    exact ⟨_, hw.symm⟩
          obtain ⟨msg, rfl⟩ := he
          simp [SystemState.download_file, h, hf, hw]
      | ok fs1 =>
          obtain ⟨r, hr⟩ := Option.isSome_iff_exists.mp hsome
          simp [SystemState.download_file, h, hf, hw, hread r hr]
  · intro hd
    have hf : LocalFS.isfile s.fs b = false := by
      unfold LocalFS.isfile
      simp [hd]
    have hw : LocalFS.open_wb s.fs b
        = .error (.osError ("IsADirectoryError: `" ++ b ++ "` is a directory")) := by
      unfold LocalFS.open_wb
      simp [hd]
    simp [SystemState.download_file, h, hf, hw]

/-- Witness for C10 at concrete inputs: with the remote blob present,
a regular file at the destination triggers the `ValueError` guard,
while a directory at the destination instead fails at the open. -/
theorem download_file_local_guard_witness :
    ((state2.download_file "r.txt" "l.txt").1
        = .error (.valueError ("The specified file `" ++ "l.txt" ++ "` already exists.")))
    ∧ ((state3.download_file "r.txt" "l.txt").1
        = .error (.osError ("IsADirectoryError: `" ++ "l.txt" ++ "` is a directory"))) :=
  ⟨((download_file_local_guard state2 "r.txt" "l.txt" rfl).1).mpr rfl,
   (download_file_local_guard state3 "r.txt" "l.txt" rfl).2 rfl⟩
